import Mathlib

/-!
Shallow embedding of the BuildXL sandbox decision core, covering
`Public/Src/Sandbox/Linux/SandboxEvent.h` and
`Public/Src/Sandbox/MacOs/Interop/Sandbox/Handlers/AccessHandler.hpp`.

Embedding conventions:
* C strings (`const char *`) are embedded as `Option (List Char)`: `none` is
  the null pointer and `some cs` a string whose characters are `cs`;
  `std::string` fields are embedded as `List Char`.
* C++ `assert` preconditions are embedded by returning `Option`: `none` marks
  an assertion failure (a contract violation), `some` the result computed when
  all asserts pass.
* `pid_t` and file descriptors are embedded as `Int`; enum values and the
  unsigned types `mode_t` / `uint` as `Nat` (no arithmetic on them occurs, so
  no overflow modelling is needed).
-/

/-- `es_event_type_t` is an opaque platform enum; embedded as `Nat`. -/
abbrev es_event_type_t := Nat

/-- The `ES_EVENT_TYPE_NOTIFY_FORK` constant used by `ForkSandboxEvent`;
its concrete numeric value is irrelevant to the embedded code. -/
def ES_EVENT_TYPE_NOTIFY_FORK : es_event_type_t := 0

/-- The Linux `AT_FDCWD` sentinel handle meaning "current working directory". -/
def AT_FDCWD : Int := -100

/-- `SandboxEventPathType` from `SandboxEvent.h`. -/
inductive SandboxEventPathType where
  | kAbsolutePaths
  | kRelativePaths
  | kFileDescriptors
  deriving DecidableEq, Repr

/-- `RequiredPathResolution` from `SandboxEvent.h`. -/
inductive RequiredPathResolution where
  | kFullyResolve
  | kResolveNoFollow
  | kDoNotResolve
  deriving DecidableEq, Repr

/-- The fields of `class SandboxEvent` from `SandboxEvent.h`. -/
structure SandboxEvent where
  event_type_ : es_event_type_t
  path_type_ : SandboxEventPathType
  src_path_ : List Char
  dst_path_ : List Char
  src_fd_ : Int
  dst_fd_ : Int
  pid_ : Int
  child_pid_ : Int
  required_path_resolution_ : RequiredPathResolution
  mode_ : Nat
  error_ : Nat
  is_valid_ : Bool
  is_sealed_ : Bool
  deriving DecidableEq, Repr

/-- The private default constructor `SandboxEvent()` together with
`SandboxEvent::Invalid()`: only `is_valid_ = false` and `is_sealed_ = false`
are set by the source; the remaining (indeterminate) fields are given fixed
default values here. -/
def SandboxEvent.Invalid : SandboxEvent :=
  { event_type_ := 0
    path_type_ := SandboxEventPathType.kAbsolutePaths
    src_path_ := []
    dst_path_ := []
    src_fd_ := 0
    dst_fd_ := 0
    pid_ := 0
    child_pid_ := 0
    required_path_resolution_ := RequiredPathResolution.kFullyResolve
    mode_ := 0
    error_ := 0
    is_valid_ := false
    is_sealed_ := false }

/-- The private field-initializing constructor of `SandboxEvent`
(`SandboxEvent.h`, lines 57-80): sets `mode_ = 0`,
`required_path_resolution_ = kFullyResolve`, `is_valid_ = true`,
`is_sealed_ = false`. -/
def SandboxEvent.ofFields (event_type : es_event_type_t)
    (src_path dst_path : List Char) (src_fd dst_fd pid child_pid : Int)
    (error : Nat) (path_type : SandboxEventPathType) : SandboxEvent :=
  { event_type_ := event_type
    path_type_ := path_type
    src_path_ := src_path
    dst_path_ := dst_path
    src_fd_ := src_fd
    dst_fd_ := dst_fd
    pid_ := pid
    child_pid_ := child_pid
    required_path_resolution_ := RequiredPathResolution.kFullyResolve
    mode_ := 0
    error_ := error
    is_valid_ := true
    is_sealed_ := false }

/-- `SandboxEvent::ForkSandboxEvent`. -/
def ForkSandboxEvent (pid child_pid : Int) (path : List Char) : SandboxEvent :=
  SandboxEvent.ofFields ES_EVENT_TYPE_NOTIFY_FORK path [] (-1) (-1) pid
    child_pid 0 SandboxEventPathType.kAbsolutePaths

/-- `SandboxEvent::RelativePathSandboxEvent`: null source or destination path
yields the invalid sentinel, otherwise an event of kind `kRelativePaths`. -/
def RelativePathSandboxEvent (event_type : es_event_type_t) (pid : Int)
    (error : Nat) (src_path : Option (List Char)) (src_fd : Int)
    (dst_path : Option (List Char)) (dst_fd : Int) : SandboxEvent :=
  match src_path, dst_path with
  | some src, some dst =>
      SandboxEvent.ofFields event_type src dst src_fd dst_fd pid 0 error
        SandboxEventPathType.kRelativePaths
  | _, _ => SandboxEvent.Invalid

/-- `SandboxEvent::AbsolutePathSandboxEvent`: null source or destination path
yields the invalid sentinel; a source that is empty or not rooted at the path
separator, or a non-empty destination not rooted at the path separator, is
reclassified as relative to the current working directory and redirected to
`RelativePathSandboxEvent` with `AT_FDCWD` substituted for each relative
path's root handle. -/
def AbsolutePathSandboxEvent (event_type : es_event_type_t) (pid : Int)
    (error : Nat) (src_path dst_path : Option (List Char)) : SandboxEvent :=
  match src_path, dst_path with
  | some src, some dst =>
      let is_src_relative : Bool := src.isEmpty || !(src.head? = some '/')
      let is_dst_relative : Bool := !dst.isEmpty && !(dst.head? = some '/')
      if is_src_relative || is_dst_relative then
        RelativePathSandboxEvent event_type pid error (some src)
          (if is_src_relative then AT_FDCWD else -1) (some dst)
          (if is_dst_relative then AT_FDCWD else -1)
      else
        SandboxEvent.ofFields event_type src dst (-1) (-1) pid 0 error
          SandboxEventPathType.kAbsolutePaths
  | _, _ => SandboxEvent.Invalid

/-- `SandboxEvent::FileDescriptorSandboxEvent`. -/
def FileDescriptorSandboxEvent (event_type : es_event_type_t) (pid : Int)
    (error : Nat) (src_fd dst_fd : Int) : SandboxEvent :=
  SandboxEvent.ofFields event_type [] [] src_fd dst_fd pid 0 error
    SandboxEventPathType.kFileDescriptors

/-- `S_ISDIR(m)`: the file-type bits of the mode equal the directory bits. -/
def S_ISDIR (m : Nat) : Bool := m &&& 0o170000 == 0o40000

/-- `SandboxEvent::IsValid`: the only getter with no validity assert. -/
def SandboxEvent.IsValid (e : SandboxEvent) : Bool := e.is_valid_

/-- `SandboxEvent::GetPid` (asserts validity). -/
def SandboxEvent.GetPid (e : SandboxEvent) : Option Int :=
  if e.is_valid_ then some e.pid_ else none

/-- `SandboxEvent::GetChildPid` (asserts validity). -/
def SandboxEvent.GetChildPid (e : SandboxEvent) : Option Int :=
  if e.is_valid_ then some e.child_pid_ else none

/-- `SandboxEvent::GetEventType` (asserts validity). -/
def SandboxEvent.GetEventType (e : SandboxEvent) : Option es_event_type_t :=
  if e.is_valid_ then some e.event_type_ else none

/-- `SandboxEvent::GetMode` (asserts validity). -/
def SandboxEvent.GetMode (e : SandboxEvent) : Option Nat :=
  if e.is_valid_ then some e.mode_ else none

/-- `SandboxEvent::GetSrcPath` (asserts validity). -/
def SandboxEvent.GetSrcPath (e : SandboxEvent) : Option (List Char) :=
  if e.is_valid_ then some e.src_path_ else none

/-- `SandboxEvent::GetDstPath` (asserts validity). -/
def SandboxEvent.GetDstPath (e : SandboxEvent) : Option (List Char) :=
  if e.is_valid_ then some e.dst_path_ else none

/-- `SandboxEvent::GetSrcFd` (asserts validity). -/
def SandboxEvent.GetSrcFd (e : SandboxEvent) : Option Int :=
  if e.is_valid_ then some e.src_fd_ else none

/-- `SandboxEvent::GetDstFd` (asserts validity). -/
def SandboxEvent.GetDstFd (e : SandboxEvent) : Option Int :=
  if e.is_valid_ then some e.dst_fd_ else none

/-- `SandboxEvent::GetError` (asserts validity). -/
def SandboxEvent.GetError (e : SandboxEvent) : Option Nat :=
  if e.is_valid_ then some e.error_ else none

/-- `SandboxEvent::GetPathType` (asserts validity). -/
def SandboxEvent.GetPathType (e : SandboxEvent) : Option SandboxEventPathType :=
  if e.is_valid_ then some e.path_type_ else none

/-- `SandboxEvent::GetRequiredPathResolution` (asserts validity). -/
def SandboxEvent.GetRequiredPathResolution (e : SandboxEvent) :
    Option RequiredPathResolution :=
  if e.is_valid_ then some e.required_path_resolution_ else none

/-- `SandboxEvent::IsDirectory` (asserts validity): `S_ISDIR(mode_)`. -/
def SandboxEvent.IsDirectory (e : SandboxEvent) : Option Bool :=
  if e.is_valid_ then some (S_ISDIR e.mode_) else none

/-- `SandboxEvent::Seal` (no assert): marks the event immutable. -/
def SandboxEvent.Seal (e : SandboxEvent) : SandboxEvent :=
  { e with is_sealed_ := true }

/-- `SandboxEvent::SetMode` (asserts validity and not sealed). -/
def SandboxEvent.SetMode (e : SandboxEvent) (mode : Nat) : Option SandboxEvent :=
  if e.is_valid_ && !e.is_sealed_ then some { e with mode_ := mode } else none

/-- `SandboxEvent::SetRequiredPathResolution` (asserts validity and not
sealed). -/
def SandboxEvent.SetRequiredPathResolution (e : SandboxEvent)
    (r : RequiredPathResolution) : Option SandboxEvent :=
  if e.is_valid_ && !e.is_sealed_ then
    some { e with required_path_resolution_ := r }
  else none

/-- `SandboxEvent::SetResolvedPaths` (asserts validity and not sealed):
replaces both paths, clears both file descriptors, forces
`required_path_resolution_ = kDoNotResolve` and `path_type_ =
kAbsolutePaths`. -/
def SandboxEvent.SetResolvedPaths (e : SandboxEvent)
    (src_path dst_path : List Char) : Option SandboxEvent :=
  if e.is_valid_ && !e.is_sealed_ then
    some { e with
            src_path_ := src_path
            dst_path_ := dst_path
            src_fd_ := -1
            dst_fd_ := -1
            required_path_resolution_ := RequiredPathResolution.kDoNotResolve
            path_type_ := SandboxEventPathType.kAbsolutePaths }
  else none

/-! ## The access-check-and-report pipeline (`AccessHandler.hpp`)

`AccessHandler.hpp` declares `IgnoreDataPartitionPrefix`,
`CheckAndReportInternal` and the process-tree reporting operations, but their
bodies live in a translation unit that is not among the sources; those bodies
are modelled from the spec below, keeping the constants and signatures the
header does provide. -/

/-- `ReportResult` from `AccessHandler.hpp`. -/
inductive ReportResult where
  | kReported
  | kSkipped
  | kFailed
  deriving DecidableEq, Repr

/-- `AccessHandler::kDataPartitionPrefix = "/System/Volumes/Data/"` (with the
trailing separator), as a character list. -/
def kDataPartitionChars : List Char := "/System/Volumes/Data/".data

/-- `AccessHandler::kAdjustedPrefixLength = strlen("/System/Volumes/Data")`. -/
def kAdjustedPrefixLength : Nat := "/System/Volumes/Data".length

/-- Modelled from the spec: the body of
`AccessHandler::IgnoreDataPartitionPrefix` is not among the sources (only its
declaration and the two constants above are). Per the spec's canonicalization
step, it strips the known OS overlay-mount prefix from any absolute path
before the path is used as a cache key or policy-lookup key: if the path
begins with `kDataPartitionPrefix` (separator included), the first
`kAdjustedPrefixLength` characters are dropped; otherwise the path is
returned unchanged. -/
def ignoreDataPartition (path : List Char) : List Char :=
  if path.take kDataPartitionChars.length = kDataPartitionChars then
    path.drop kAdjustedPrefixLength
  else path

/-- Modelled from the spec: `AccessCheckResult` (declared in the external
`Checkers.hpp`) encodes allow/deny and whether the access should be surfaced
to the orchestrator at all. -/
structure AccessCheckResult where
  allowed : Bool
  shouldReport : Bool
  deriving DecidableEq, Repr

/-- A `PolicyResult` is produced by the external policy index; its contents
are opaque to the pipeline, so it is embedded as `Nat`. -/
abbrev PolicyResult := Nat

/-- `FileOperation` is an opaque enum; embedded as `Nat`. -/
abbrev FileOperation := Nat

/-- Association-list lookup for the access-decision cache, keyed by
`(operation, canonicalized path)`. -/
def lookupCache (cache : List ((FileOperation × List Char) × AccessCheckResult))
    (key : FileOperation × List Char) : Option AccessCheckResult :=
  match cache with
  | [] => none
  | (k, d) :: rest => if k = key then some d else lookupCache rest key

/-- Modelled from the spec: the per-pip mutable state of the
access-check-and-report pipeline — the access-decision cache keyed by
`(operation, canonicalized path)`, plus instrumentation counters for the two
externally observable effects: policy lookups performed and report emissions
(invocations of `ReportFileOpAccess`). -/
structure PipelineState where
  cache : List ((FileOperation × List Char) × AccessCheckResult)
  lookupCount : Nat
  reportCount : Nat
  deriving DecidableEq, Repr

/-- The pipeline state of a freshly started pip: empty cache, no lookups, no
reports. -/
def PipelineState.initial : PipelineState :=
  { cache := [], lookupCount := 0, reportCount := 0 }

/-- Modelled from the spec: the body of
`AccessHandler::CheckAndReportInternal` is not among the sources (only its
declaration is). Per the spec's pipeline: canonicalize the path, build the
cache key `(operation, canonicalized path)`; on a cache hit return the cached
decision unchanged (no policy lookup, no report); on a miss resolve policy
for the canonicalized path, apply the checker, invoke the reporting operation
(counted by `reportCount` whatever its reported/skipped/failed outcome), and
insert the decision into the cache. `resolvePolicy` and `checker` embed the
external policy index and checker function. -/
def CheckAndReportInternal (resolvePolicy : List Char → PolicyResult)
    (checker : FileOperation → PolicyResult → Bool → AccessCheckResult)
    (s : PipelineState) (operation : FileOperation) (path : List Char)
    (isDir : Bool) : AccessCheckResult × PipelineState :=
  let canonicalPath := ignoreDataPartition path
  let key := (operation, canonicalPath)
  match lookupCache s.cache key with
  | some decision => (decision, s)
  | none =>
      let policy := resolvePolicy canonicalPath
      let decision := checker operation policy isDir
      (decision,
        { cache := (key, decision) :: s.cache
          lookupCount := s.lookupCount + 1
          reportCount := s.reportCount + 1 })

/-- `AccessHandler::CheckAndReport` (three-argument overload): forwards to
`CheckAndReportInternal` with `isDir = false`. -/
def CheckAndReport (resolvePolicy : List Char → PolicyResult)
    (checker : FileOperation → PolicyResult → Bool → AccessCheckResult)
    (s : PipelineState) (operation : FileOperation) (path : List Char) :
    AccessCheckResult × PipelineState :=
  CheckAndReportInternal resolvePolicy checker s operation path false

/-- Folds a sequence of `CheckAndReportInternal` calls (given as
`(path, isDir)` pairs, all for one operation) over the pipeline state. -/
def runCalls (resolvePolicy : List Char → PolicyResult)
    (checker : FileOperation → PolicyResult → Bool → AccessCheckResult)
    (s : PipelineState) (operation : FileOperation)
    (calls : List (List Char × Bool)) : PipelineState :=
  calls.foldl
    (fun st c => (CheckAndReportInternal resolvePolicy checker st operation
      c.1 c.2).2) s

/-! ## Process-tree tracking (`AccessHandler.hpp`) -/

/-- Modelled from the spec: the bodies of
`AccessHandler::ReportChildProcessSpawned`, `ReportProcessExited` and
`ReportProcessTreeCompleted` are not among the sources (only their
declarations are). The per-pip tracker state: the live set of descendant
pids, the set of pids whose exit has already been processed (so a second exit
for an already-removed pid is ignored), the pip's statically declared process
tree size, and a counter of `ReportProcessTreeCompleted` firings. -/
structure TreeState where
  live : Finset Int
  exited : Finset Int
  treeSize : Nat
  completedCount : Nat
  deriving DecidableEq

/-- The tracker state of a pip with declared tree size `n`, before any
spawn/exit notification. -/
def TreeState.initial (n : Nat) : TreeState :=
  { live := ∅, exited := ∅, treeSize := n, completedCount := 0 }

/-- Modelled from the spec: `ReportProcessTreeCompleted` signals the
orchestrator that the pip's tree has quiesced; here it just counts its own
firings. -/
def ReportProcessTreeCompleted (s : TreeState) : TreeState :=
  { s with completedCount := s.completedCount + 1 }

/-- Modelled from the spec: `ReportChildProcessSpawned` registers a new
descendant in the live set. A spawn whose pid has already exited (its exit
notification raced ahead and was lazily admitted) is not re-registered. -/
def ReportChildProcessSpawned (s : TreeState) (childPid : Int) : TreeState :=
  if childPid ∈ s.exited then s
  else { s with live := insert childPid s.live }

/-- Modelled from the spec: `ReportProcessExited` removes the descendant from
the live set; an exit for a pid never explicitly spawned is lazily admitted
(processed, not rejected), while an exit for an already-removed pid is
ignored. When the live set becomes empty and all `treeSize` declared
descendants have been accounted for, `ReportProcessTreeCompleted` fires. -/
def ReportProcessExited (s : TreeState) (childPid : Int) : TreeState :=
  if childPid ∈ s.exited then s
  else if s.live.erase childPid = ∅ ∧
      (insert childPid s.exited).card = s.treeSize then
    ReportProcessTreeCompleted
      { s with live := s.live.erase childPid
               exited := insert childPid s.exited }
  else
    { s with live := s.live.erase childPid
             exited := insert childPid s.exited }

/-- A spawn or exit notification for one descendant pid. -/
inductive PEvent where
  | spawn (pid : Int)
  | exit (pid : Int)
  deriving DecidableEq, Repr

/-- The pid a notification is about. -/
def PEvent.pidOf : PEvent → Int
  | .spawn p => p
  | .exit p => p

/-- Delivers one notification to the tracker. -/
def treeStep (s : TreeState) : PEvent → TreeState
  | .spawn p => ReportChildProcessSpawned s p
  | .exit p => ReportProcessExited s p

/-- Delivers a sequence of notifications to the tracker. -/
def runEvents (s : TreeState) (evs : List PEvent) : TreeState :=
  evs.foldl treeStep s

/-- The pids of the spawn notifications of a sequence, in order. -/
def spawnPids (evs : List PEvent) : List Int :=
  evs.filterMap fun e =>
    match e with
    | .spawn p => some p
    | .exit _ => none

/-- The pids of the exit notifications of a sequence, in order. -/
def exitPids (evs : List PEvent) : List Int :=
  evs.filterMap fun e =>
    match e with
    | .spawn _ => none
    | .exit p => some p

/-- C3: after a successful `SetResolvedPaths` the event's path kind is
`kAbsolutePaths`, its required path resolution is `kDoNotResolve` and both
file-descriptor fields are cleared to `-1`; calling `SetResolvedPaths` again
with the same arguments succeeds and leaves the event unchanged, so
re-resolution is impossible. -/
theorem SetResolvedPaths_forces_absolute (e e' : SandboxEvent)
    (src dst : List Char) (h : e.SetResolvedPaths src dst = some e') :
    e'.path_type_ = SandboxEventPathType.kAbsolutePaths ∧
    e'.required_path_resolution_ = RequiredPathResolution.kDoNotResolve ∧
    e'.src_fd_ = -1 ∧ e'.dst_fd_ = -1 ∧
    e'.SetResolvedPaths src dst = some e' := by
  unfold SandboxEvent.SetResolvedPaths at h
  split at h
  · rename_i hc
    injection h with h
    subst h
    refine ⟨rfl, rfl, rfl, rfl, ?_⟩
    unfold SandboxEvent.SetResolvedPaths
    simp only at hc ⊢
    rw [if_pos hc]
  · exact absurd h (by simp)

/-- C4: a non-null source path that is empty or not beginning with a path
separator, together with a non-null non-empty destination path not beginning
with a path separator, makes `AbsolutePathSandboxEvent` redirect to
`RelativePathSandboxEvent` with the `AT_FDCWD` current-directory sentinel
substituted as the root handle of each path classified relative, and the
resulting event has path kind `kRelativePaths`. -/
theorem AbsolutePathSandboxEvent_redirects_relative (event_type : Nat)
    (pid : Int) (error : Nat) (src dst : List Char)
    (hsrc : src = [] ∨ src.head? ≠ some '/')
    (hdst1 : dst ≠ []) (hdst2 : dst.head? ≠ some '/') :
    AbsolutePathSandboxEvent event_type pid error (some src) (some dst) =
      RelativePathSandboxEvent event_type pid error (some src) AT_FDCWD
        (some dst) AT_FDCWD ∧
    (AbsolutePathSandboxEvent event_type pid error (some src)
        (some dst)).path_type_ = SandboxEventPathType.kRelativePaths := by
  have h1 : (src.isEmpty || !(src.head? = some '/')) = true := by
    rcases hsrc with h | h
    · subst h; rfl
    · simp [h]
  have h2 : (!dst.isEmpty && !(dst.head? = some '/')) = true := by
    simp [hdst2, List.isEmpty_iff, hdst1]
  constructor
  · simp only [AbsolutePathSandboxEvent, h1, h2, Bool.true_or, Bool.or_true,
      if_true]
  · simp only [AbsolutePathSandboxEvent, h1, h2, Bool.true_or, Bool.or_true,
      if_true, RelativePathSandboxEvent, SandboxEvent.ofFields]

/-- C5: an `AbsolutePathSandboxEvent` built from a source path beginning with
the path separator and an empty (non-null) destination path is a valid event
of path kind `kAbsolutePaths` with an empty destination path: an empty
destination is "no destination", not a relative path, and does not trigger
redirection to the relative-path constructor. -/
theorem AbsolutePathSandboxEvent_empty_dst (event_type : Nat) (pid : Int)
    (error : Nat) (src : List Char) (hsrc : src.head? = some '/') :
    (AbsolutePathSandboxEvent event_type pid error (some src)
        (some [])).IsValid = true ∧
    (AbsolutePathSandboxEvent event_type pid error (some src)
        (some [])).GetPathType = some SandboxEventPathType.kAbsolutePaths ∧
    (AbsolutePathSandboxEvent event_type pid error (some src)
        (some [])).GetDstPath = some [] := by
  obtain ⟨rest, rfl⟩ : ∃ rest, src = '/' :: rest := by
    cases src with
    | nil => simp at hsrc
    | cons c cs =>
        refine ⟨cs, ?_⟩
        have : c = '/' := by simpa using hsrc
        rw [this]
  simp [AbsolutePathSandboxEvent, SandboxEvent.ofFields, SandboxEvent.IsValid,
    SandboxEvent.GetPathType, SandboxEvent.GetDstPath]

/-- C7: a null source or destination path given to
`AbsolutePathSandboxEvent` or `RelativePathSandboxEvent` yields the
distinguished invalid sentinel, whose `IsValid` returns `false`; no populated
event is ever constructed from a null path input. -/
theorem null_path_yields_invalid (event_type : Nat) (pid : Int) (error : Nat)
    (src dst : Option (List Char)) (src_fd dst_fd : Int)
    (h : src = none ∨ dst = none) :
    AbsolutePathSandboxEvent event_type pid error src dst =
      SandboxEvent.Invalid ∧
    RelativePathSandboxEvent event_type pid error src src_fd dst dst_fd =
      SandboxEvent.Invalid ∧
    SandboxEvent.Invalid.IsValid = false := by
  rcases h with rfl | rfl
  · exact ⟨by cases dst <;> rfl, by cases dst <;> rfl, rfl⟩
  · exact ⟨by cases src <;> rfl, by cases src <;> rfl, rfl⟩

/-- C8: on a sealed event every mutating operation (`SetMode`,
`SetRequiredPathResolution`, `SetResolvedPaths`) fails its not-sealed
assertion (returns `none`), so no field of a sealed event is ever mutated. -/
theorem sealed_event_rejects_mutation (e : SandboxEvent) (m : Nat)
    (r : RequiredPathResolution) (src dst : List Char)
    (h : e.is_sealed_ = true) :
    e.SetMode m = none ∧ e.SetRequiredPathResolution r = none ∧
    e.SetResolvedPaths src dst = none := by
  simp [SandboxEvent.SetMode, SandboxEvent.SetRequiredPathResolution,
    SandboxEvent.SetResolvedPaths, h]

/-- C9: every field accessor requires the event to be valid — on an event
whose validity flag is unset each of them fails its validity assertion
(returns `none`) — while `IsValid` itself can be called on any event. -/
theorem accessors_require_validity (e : SandboxEvent)
    (h : e.is_valid_ = false) :
    e.GetPid = none ∧ e.GetChildPid = none ∧ e.GetEventType = none ∧
    e.GetMode = none ∧ e.GetSrcPath = none ∧ e.GetDstPath = none ∧
    e.GetSrcFd = none ∧ e.GetDstFd = none ∧ e.GetError = none ∧
    e.GetPathType = none ∧ e.GetRequiredPathResolution = none ∧
    e.IsDirectory = none ∧ e.IsValid = false := by
  simp [SandboxEvent.GetPid, SandboxEvent.GetChildPid,
    SandboxEvent.GetEventType, SandboxEvent.GetMode, SandboxEvent.GetSrcPath,
    SandboxEvent.GetDstPath, SandboxEvent.GetSrcFd, SandboxEvent.GetDstFd,
    SandboxEvent.GetError, SandboxEvent.GetPathType,
    SandboxEvent.GetRequiredPathResolution, SandboxEvent.IsDirectory,
    SandboxEvent.IsValid, h]

/-- C10: when `AbsolutePathSandboxEvent` receives one path classified
relative and one classified absolute, the constructed event has path kind
`kRelativePaths`, the relative path's root-handle field is `AT_FDCWD`, and
the absolute path's root-handle field is `-1`: only paths classified
relative receive the current-directory sentinel handle. -/
theorem mixed_relative_absolute_handles (event_type : Nat) (pid : Int)
    (error : Nat) (src dst : List Char) :
    ((src = [] ∨ src.head? ≠ some '/') → dst.head? = some '/' →
      (AbsolutePathSandboxEvent event_type pid error (some src)
          (some dst)).path_type_ = SandboxEventPathType.kRelativePaths ∧
      (AbsolutePathSandboxEvent event_type pid error (some src)
          (some dst)).src_fd_ = AT_FDCWD ∧
      (AbsolutePathSandboxEvent event_type pid error (some src)
          (some dst)).dst_fd_ = -1) ∧
    (src.head? = some '/' → dst ≠ [] → dst.head? ≠ some '/' →
      (AbsolutePathSandboxEvent event_type pid error (some src)
          (some dst)).path_type_ = SandboxEventPathType.kRelativePaths ∧
      (AbsolutePathSandboxEvent event_type pid error (some src)
          (some dst)).src_fd_ = -1 ∧
      (AbsolutePathSandboxEvent event_type pid error (some src)
          (some dst)).dst_fd_ = AT_FDCWD) := by
  constructor
  · intro hsrc hdst
    have h1 : (src.isEmpty || !(src.head? = some '/')) = true := by
      rcases hsrc with h | h
      · subst h; rfl
      · simp [h]
    obtain ⟨rest, rfl⟩ : ∃ rest, dst = '/' :: rest := by
      cases dst with
      | nil => simp at hdst
      | cons c cs =>
          refine ⟨cs, ?_⟩
          have : c = '/' := by simpa using hdst
          rw [this]
    have h2 : (!(('/' :: rest).isEmpty) && !(('/' :: rest).head? = some '/'))
        = false := by simp
    simp [AbsolutePathSandboxEvent, h1, h2, RelativePathSandboxEvent,
      SandboxEvent.ofFields]
  · intro hsrc hdst1 hdst2
    obtain ⟨rest, rfl⟩ : ∃ rest, src = '/' :: rest := by
      cases src with
      | nil => simp at hsrc
      | cons c cs =>
          refine ⟨cs, ?_⟩
          have : c = '/' := by simpa using hsrc
          rw [this]
    have h1 : ((('/' :: rest).isEmpty) || !(('/' :: rest).head? = some '/'))
        = false := by simp
    have h2 : (!dst.isEmpty && !(dst.head? = some '/')) = true := by
      simp [hdst2, List.isEmpty_iff, hdst1]
    simp [AbsolutePathSandboxEvent, h1, h2, RelativePathSandboxEvent,
      SandboxEvent.ofFields]

/-- Concrete valid unsealed event used by the `SetResolvedPaths` witness. -/
def witnessEventC3 : SandboxEvent :=
  AbsolutePathSandboxEvent 1 2 0 (some ['/', 'a']) (some [])

/-- `witnessEventC3` after `SetResolvedPaths`. -/
def witnessEventC3' : SandboxEvent :=
  (witnessEventC3.SetResolvedPaths ['/', 'b'] []).getD SandboxEvent.Invalid

/-- Witness for C3. -/
theorem SetResolvedPaths_forces_absolute_witness :
    witnessEventC3'.path_type_ = SandboxEventPathType.kAbsolutePaths ∧
    witnessEventC3'.required_path_resolution_ =
      RequiredPathResolution.kDoNotResolve ∧
    witnessEventC3'.src_fd_ = -1 ∧ witnessEventC3'.dst_fd_ = -1 ∧
    witnessEventC3'.SetResolvedPaths ['/', 'b'] [] = some witnessEventC3' :=
  SetResolvedPaths_forces_absolute witnessEventC3 witnessEventC3' ['/', 'b'] []
    (by decide)

/-- Witness for C4. -/
theorem AbsolutePathSandboxEvent_redirects_relative_witness :
    AbsolutePathSandboxEvent 1 2 3 (some ['r']) (some ['d']) =
      RelativePathSandboxEvent 1 2 3 (some ['r']) AT_FDCWD (some ['d'])
        AT_FDCWD ∧
    (AbsolutePathSandboxEvent 1 2 3 (some ['r'])
        (some ['d'])).path_type_ = SandboxEventPathType.kRelativePaths :=
  AbsolutePathSandboxEvent_redirects_relative 1 2 3 ['r'] ['d']
    (Or.inr (by decide)) (by decide) (by decide)

/-- Witness for C5. -/
theorem AbsolutePathSandboxEvent_empty_dst_witness :
    (AbsolutePathSandboxEvent 1 2 0 (some ['/', 't'])
        (some [])).IsValid = true ∧
    (AbsolutePathSandboxEvent 1 2 0 (some ['/', 't'])
        (some [])).GetPathType = some SandboxEventPathType.kAbsolutePaths ∧
    (AbsolutePathSandboxEvent 1 2 0 (some ['/', 't'])
        (some [])).GetDstPath = some [] :=
  AbsolutePathSandboxEvent_empty_dst 1 2 0 ['/', 't'] (by decide)

/-- Witness for C7. -/
theorem null_path_yields_invalid_witness :
    AbsolutePathSandboxEvent 1 2 3 none (some []) = SandboxEvent.Invalid ∧
    RelativePathSandboxEvent 1 2 3 none 4 (some []) 5 =
      SandboxEvent.Invalid ∧
    SandboxEvent.Invalid.IsValid = false :=
  null_path_yields_invalid 1 2 3 none (some []) 4 5 (Or.inl rfl)

/-- Witness for C8. -/
theorem sealed_event_rejects_mutation_witness :
    ((AbsolutePathSandboxEvent 1 2 0 (some ['/', 'a'])
        (some [])).Seal).SetMode 7 = none ∧
    ((AbsolutePathSandboxEvent 1 2 0 (some ['/', 'a'])
        (some [])).Seal).SetRequiredPathResolution
        RequiredPathResolution.kDoNotResolve = none ∧
    ((AbsolutePathSandboxEvent 1 2 0 (some ['/', 'a'])
        (some [])).Seal).SetResolvedPaths ['/', 'b'] [] = none :=
  sealed_event_rejects_mutation
    ((AbsolutePathSandboxEvent 1 2 0 (some ['/', 'a']) (some [])).Seal) 7
    RequiredPathResolution.kDoNotResolve ['/', 'b'] [] (by decide)

/-- Witness for C9. -/
theorem accessors_require_validity_witness :
    SandboxEvent.Invalid.GetPid = none ∧
    SandboxEvent.Invalid.GetChildPid = none ∧
    SandboxEvent.Invalid.GetEventType = none ∧
    SandboxEvent.Invalid.GetMode = none ∧
    SandboxEvent.Invalid.GetSrcPath = none ∧
    SandboxEvent.Invalid.GetDstPath = none ∧
    SandboxEvent.Invalid.GetSrcFd = none ∧
    SandboxEvent.Invalid.GetDstFd = none ∧
    SandboxEvent.Invalid.GetError = none ∧
    SandboxEvent.Invalid.GetPathType = none ∧
    SandboxEvent.Invalid.GetRequiredPathResolution = none ∧
    SandboxEvent.Invalid.IsDirectory = none ∧
    SandboxEvent.Invalid.IsValid = false :=
  accessors_require_validity SandboxEvent.Invalid (by decide)

/-- Witness for C10. -/
theorem mixed_relative_absolute_handles_witness :
    ((AbsolutePathSandboxEvent 1 2 3 (some ['r'])
        (some ['/', 'd'])).path_type_ = SandboxEventPathType.kRelativePaths ∧
     (AbsolutePathSandboxEvent 1 2 3 (some ['r'])
        (some ['/', 'd'])).src_fd_ = AT_FDCWD ∧
     (AbsolutePathSandboxEvent 1 2 3 (some ['r'])
        (some ['/', 'd'])).dst_fd_ = -1) ∧
    ((AbsolutePathSandboxEvent 1 2 3 (some ['/', 's'])
        (some ['d'])).path_type_ = SandboxEventPathType.kRelativePaths ∧
     (AbsolutePathSandboxEvent 1 2 3 (some ['/', 's'])
        (some ['d'])).src_fd_ = -1 ∧
     (AbsolutePathSandboxEvent 1 2 3 (some ['/', 's'])
        (some ['d'])).dst_fd_ = AT_FDCWD) :=
  ⟨(mixed_relative_absolute_handles 1 2 3 ['r'] ['/', 'd']).1
      (Or.inr (by decide)) (by decide),
   (mixed_relative_absolute_handles 1 2 3 ['/', 's'] ['d']).2
      (by decide) (by decide) (by decide)⟩

/-- On a cache miss the key just inserted is found. -/
theorem lookupCache_cons_self (k : FileOperation × List Char)
    (d : AccessCheckResult)
    (c : List ((FileOperation × List Char) × AccessCheckResult)) :
    lookupCache ((k, d) :: c) k = some d := by
  simp [lookupCache]

/-- A cache hit returns the cached decision and leaves the state unchanged. -/
theorem CheckAndReportInternal_hit (rp : List Char → PolicyResult)
    (ck : FileOperation → PolicyResult → Bool → AccessCheckResult)
    (s : PipelineState) (op : FileOperation) (p : List Char) (b : Bool)
    (d : AccessCheckResult)
    (h : lookupCache s.cache (op, ignoreDataPartition p) = some d) :
    CheckAndReportInternal rp ck s op p b = (d, s) := by
  simp only [CheckAndReportInternal, h]

/-- A run of calls each of which leaves the state fixed is the identity. -/
theorem runCalls_fixed (rp : List Char → PolicyResult)
    (ck : FileOperation → PolicyResult → Bool → AccessCheckResult)
    (s : PipelineState) (op : FileOperation)
    (calls : List (List Char × Bool))
    (h : ∀ c ∈ calls, (CheckAndReportInternal rp ck s op c.1 c.2).2 = s) :
    runCalls rp ck s op calls = s := by
  induction calls with
  | nil => rfl
  | cons c cs ih =>
      unfold runCalls
      simp only [List.foldl_cons]
      rw [h c (List.mem_cons_self c cs)]
      exact ih fun x hx => h x (List.mem_cons_of_mem _ hx)

/-- C6: two absolute paths that differ only in that one begins with the
overlay-mount prefix `/System/Volumes/Data` are mapped to the same string by
the canonicalization step, so they produce the same de-duplication cache key
and the same policy-lookup result. -/
theorem ignoreDataPartition_same_key (p : List Char)
    (operation : FileOperation) (resolvePolicy : List Char → PolicyResult)
    (hp : p.head? = some '/')
    (hnp : p.take kDataPartitionChars.length ≠ kDataPartitionChars) :
    ignoreDataPartition ("/System/Volumes/Data".data ++ p) =
      ignoreDataPartition p ∧
    (operation, ignoreDataPartition ("/System/Volumes/Data".data ++ p)) =
      (operation, ignoreDataPartition p) ∧
    resolvePolicy (ignoreDataPartition ("/System/Volumes/Data".data ++ p)) =
      resolvePolicy (ignoreDataPartition p) := by
  obtain ⟨rest, rfl⟩ : ∃ rest, p = '/' :: rest := by
    cases p with
    | nil => simp at hp
    | cons c cs =>
        refine ⟨cs, ?_⟩
        have : c = '/' := by simpa using hp
        rw [this]
  have hkey :
      ("/System/Volumes/Data".data ++ '/' :: rest).take
        kDataPartitionChars.length = kDataPartitionChars := by
    rw [List.take_append_eq_append_take]
    norm_num [kDataPartitionChars]
  have hdrop :
      ("/System/Volumes/Data".data ++ '/' :: rest).drop
        kAdjustedPrefixLength = '/' :: rest := by
    have : kAdjustedPrefixLength = ("/System/Volumes/Data".data).length := by
      decide
    rw [this, List.drop_left]
  have hmain : ignoreDataPartition ("/System/Volumes/Data".data ++ '/' :: rest)
      = ignoreDataPartition ('/' :: rest) := by
    rw [ignoreDataPartition, if_pos hkey, hdrop, ignoreDataPartition,
      if_neg hnp]
  exact ⟨hmain, by rw [hmain], by rw [hmain]⟩

/-- C1: in any sequence of `CheckAndReportInternal` calls with the same
`(operation, canonicalized path)` key, only the first call performs a policy
lookup and emits a report (both counters advance by exactly one); every
subsequent call with that key returns the previously computed cached
decision and leaves the pipeline state unchanged, re-invoking neither the
policy lookup nor the report emission. -/
theorem CheckAndReportInternal_dedup (resolvePolicy : List Char → PolicyResult)
    (checker : FileOperation → PolicyResult → Bool → AccessCheckResult)
    (s0 : PipelineState) (operation : FileOperation)
    (first : List Char × Bool) (rest : List (List Char × Bool))
    (canon : List Char) (d1 : AccessCheckResult) (s1 : PipelineState)
    (hcanon : ∀ c ∈ first :: rest, ignoreDataPartition c.1 = canon)
    (hfresh : lookupCache s0.cache (operation, canon) = none)
    (hfirst : CheckAndReportInternal resolvePolicy checker s0 operation
      first.1 first.2 = (d1, s1)) :
    s1.lookupCount = s0.lookupCount + 1 ∧
    s1.reportCount = s0.reportCount + 1 ∧
    (∀ c ∈ rest, CheckAndReportInternal resolvePolicy checker s1 operation
      c.1 c.2 = (d1, s1)) ∧
    runCalls resolvePolicy checker s1 operation rest = s1 := by
  have hc1 : ignoreDataPartition first.1 = canon :=
    hcanon first (List.mem_cons_self _ _)
  rw [CheckAndReportInternal, hc1, hfresh] at hfirst
  simp only at hfirst
  obtain ⟨hd1, hs1⟩ := Prod.mk.injEq .. ▸ hfirst
  subst hd1
  subst hs1
  have hhit : ∀ c ∈ rest,
      CheckAndReportInternal resolvePolicy checker
        { cache := ((operation, canon),
              checker operation (resolvePolicy canon) first.2) :: s0.cache
          lookupCount := s0.lookupCount + 1
          reportCount := s0.reportCount + 1 } operation c.1 c.2 =
      (checker operation (resolvePolicy canon) first.2,
        { cache := ((operation, canon),
              checker operation (resolvePolicy canon) first.2) :: s0.cache
          lookupCount := s0.lookupCount + 1
          reportCount := s0.reportCount + 1 }) := by
    intro c hc
    refine CheckAndReportInternal_hit _ _ _ _ _ _ _ ?_
    rw [hcanon c (List.mem_cons_of_mem _ hc)]
    exact lookupCache_cons_self _ _ _
  refine ⟨rfl, rfl, hhit, runCalls_fixed _ _ _ _ _ ?_⟩
  intro c hc
  rw [hhit c hc]

/-- Witness for C6. -/
theorem ignoreDataPartition_same_key_witness :
    ignoreDataPartition ("/System/Volumes/Data".data ++ ['/', 'f']) =
      ignoreDataPartition ['/', 'f'] ∧
    ((3 : FileOperation),
        ignoreDataPartition ("/System/Volumes/Data".data ++ ['/', 'f'])) =
      ((3 : FileOperation), ignoreDataPartition ['/', 'f']) ∧
    List.length (ignoreDataPartition
        ("/System/Volumes/Data".data ++ ['/', 'f'])) =
      List.length (ignoreDataPartition ['/', 'f']) :=
  ignoreDataPartition_same_key ['/', 'f'] 3 List.length (by decide) (by decide)

/-- The concrete access decision used by the pipeline witness. -/
def witnessDecision : AccessCheckResult :=
  { allowed := true, shouldReport := false }

/-- The concrete checker used by the pipeline witness. -/
def witnessChecker : FileOperation → PolicyResult → Bool → AccessCheckResult :=
  fun _ _ _ => witnessDecision

/-- The pipeline state after the first witness call. -/
def witnessStateC1 : PipelineState :=
  { cache := [((5, ['/', 'a']), witnessDecision)]
    lookupCount := 1
    reportCount := 1 }

/-- Witness for C1. -/
theorem CheckAndReportInternal_dedup_witness :
    witnessStateC1.lookupCount = PipelineState.initial.lookupCount + 1 ∧
    witnessStateC1.reportCount = PipelineState.initial.reportCount + 1 ∧
    (∀ c ∈ [((['/', 'a'] : List Char), true)],
      CheckAndReportInternal List.length witnessChecker witnessStateC1 5 c.1
        c.2 = (witnessDecision, witnessStateC1)) ∧
    runCalls List.length witnessChecker witnessStateC1 5
      [((['/', 'a'] : List Char), true)] = witnessStateC1 :=
  CheckAndReportInternal_dedup List.length witnessChecker
    PipelineState.initial 5 (['/', 'a'], false) [(['/', 'a'], true)]
    ['/', 'a'] witnessDecision witnessStateC1 (by decide) (by decide)
    (by decide)

/-- A spawn notification never changes the exited set. -/
theorem exited_spawn (s : TreeState) (p : Int) :
    (ReportChildProcessSpawned s p).exited = s.exited := by
  unfold ReportChildProcessSpawned
  split <;> rfl

/-- An exit notification inserts its pid into the exited set. -/
theorem exited_exit (s : TreeState) (p : Int) :
    (ReportProcessExited s p).exited = insert p s.exited := by
  unfold ReportProcessExited
  split
  · rename_i hp
    exact (Finset.insert_eq_self.mpr hp).symm
  · split <;> rfl

/-- Running a sequence of notifications accumulates exactly the exit pids
into the exited set. -/
theorem exited_runEvents (evs : List PEvent) :
    ∀ s : TreeState,
      (runEvents s evs).exited = s.exited ∪ (exitPids evs).toFinset := by
  induction evs with
  | nil => intro s; simp [runEvents, exitPids]
  | cons e tl ih =>
      intro s
      cases e with
      | spawn p =>
          have h1 : (runEvents s (PEvent.spawn p :: tl)).exited =
              (ReportChildProcessSpawned s p).exited ∪
                (exitPids tl).toFinset := ih _
          rw [exited_spawn] at h1
          simpa [exitPids, List.filterMap_cons] using h1
      | exit p =>
          have h1 : (runEvents s (PEvent.exit p :: tl)).exited =
              (ReportProcessExited s p).exited ∪ (exitPids tl).toFinset :=
            ih _
          rw [exited_exit] at h1
          rw [h1]
          simp [exitPids, List.filterMap_cons, Finset.insert_union,
            Finset.union_insert]

/-- The tracker invariant over the declared pid set `P`: the declared size is
`P.card`, both tracked sets stay inside `P`, a pid is never simultaneously
live and exited, and the completion report has fired exactly when every
declared pid has exited. -/
def TreeInv (P : Finset Int) (s : TreeState) : Prop :=
  s.treeSize = P.card ∧ s.exited ⊆ P ∧ s.live ⊆ P ∧
    Disjoint s.live s.exited ∧
    s.completedCount = (if s.exited = P then 1 else 0)

/-- One notification for a declared pid preserves the tracker invariant. -/
theorem treeStep_inv (P : Finset Int) (s : TreeState) (e : PEvent)
    (he : e.pidOf ∈ P) (h : TreeInv P s) : TreeInv P (treeStep s e) := by
  obtain ⟨hsize, hexP, hlivP, hdisj, hcnt⟩ := h
  cases e with
  | spawn p =>
      simp only [treeStep, ReportChildProcessSpawned]
      split
      · exact ⟨hsize, hexP, hlivP, hdisj, hcnt⟩
      · rename_i hp
        exact ⟨hsize, hexP, Finset.insert_subset he hlivP,
          Finset.disjoint_insert_left.mpr ⟨hp, hdisj⟩, hcnt⟩
  | exit p =>
      have hpP : p ∈ P := he
      simp only [treeStep, ReportProcessExited]
      split
      · exact ⟨hsize, hexP, hlivP, hdisj, hcnt⟩
      · rename_i hp
        have hsne : s.exited ≠ P := fun hEP => hp (hEP ▸ hpP)
        have hins : insert p s.exited ⊆ P := Finset.insert_subset hpP hexP
        have hlive : insert p s.exited = P → s.live.erase p = ∅ := by
          intro hEP
          rw [Finset.eq_empty_iff_forall_not_mem]
          intro x hx
          obtain ⟨hxp, hxl⟩ := Finset.mem_erase.mp hx
          have hxP : x ∈ P := hlivP hxl
          rw [← hEP] at hxP
          rcases Finset.mem_insert.mp hxP with h' | h'
          · exact hxp h'
          · exact Finset.disjoint_left.mp hdisj hxl h'
        have hdisj' : Disjoint (s.live.erase p) (insert p s.exited) :=
          Finset.disjoint_insert_right.mpr ⟨Finset.not_mem_erase p s.live,
            Finset.disjoint_of_subset_left (Finset.erase_subset p s.live)
              hdisj⟩
        have hsub' : s.live.erase p ⊆ P :=
          (Finset.erase_subset p s.live).trans hlivP
        split
        · rename_i hfire
          obtain ⟨hfl, hfc⟩ := hfire
          have hEP : insert p s.exited = P :=
            Finset.eq_of_subset_of_card_le hins (by rw [hfc, hsize])
          refine ⟨hsize, hins, hsub', hdisj', ?_⟩
          simp only [ReportProcessTreeCompleted]
          rw [hcnt, if_neg hsne, if_pos hEP]
        · rename_i hfire
          have hEP : insert p s.exited ≠ P := by
            intro hEP
            exact hfire ⟨hlive hEP, by rw [hEP, hsize]⟩
          refine ⟨hsize, hins, hsub', hdisj', ?_⟩
          rw [hcnt, if_neg hsne, if_neg hEP]

/-- A sequence of notifications for declared pids preserves the tracker
invariant. -/
theorem runEvents_inv (P : Finset Int) :
    ∀ evs : List PEvent, ∀ s : TreeState,
      (∀ e ∈ evs, e.pidOf ∈ P) → TreeInv P s →
      TreeInv P (runEvents s evs) := by
  intro evs
  induction evs with
  | nil => intro s _ h; exact h
  | cons e tl ih =>
      intro s hevs h
      exact ih _ (fun x hx => hevs x (List.mem_cons_of_mem _ hx))
        (treeStep_inv P s e (hevs e (List.mem_cons_self _ _)) h)

/-- C2: for a pip whose declared process-tree size is the number of its
descendant pids, after any interleaving of matching spawn and exit
notifications for those pids — including an exit observed before its pid's
spawn, which is lazily admitted rather than rejected —
`ReportProcessTreeCompleted` has fired exactly once, and a further exit for
an already-removed pid does not fire it again. -/
theorem ReportProcessTreeCompleted_fires_once (pids : List Int)
    (evs : List PEvent) (q : Int) (hnodup : pids.Nodup)
    (hspawn : (spawnPids evs).Perm pids)
    (hexit : (exitPids evs).Perm pids) (hq : q ∈ pids) :
    (runEvents (TreeState.initial pids.length) evs).completedCount = 1 ∧
    (ReportProcessExited (runEvents (TreeState.initial pids.length) evs)
        q).completedCount = 1 := by
  set P : Finset Int := pids.toFinset with hP
  have hcard : P.card = pids.length := by
    rw [hP]
    exact List.toFinset_card_of_nodup hnodup
  have hqP : q ∈ P := by rw [hP]; exact List.mem_toFinset.mpr hq
  have hevs : ∀ e ∈ evs, e.pidOf ∈ P := by
    intro e he
    cases e with
    | spawn p =>
        have hmem : p ∈ spawnPids evs := by
          rw [spawnPids, List.mem_filterMap]
          exact ⟨PEvent.spawn p, he, rfl⟩
        rw [hP]
        exact List.mem_toFinset.mpr (hspawn.mem_iff.mp hmem)
    | exit p =>
        have hmem : p ∈ exitPids evs := by
          rw [exitPids, List.mem_filterMap]
          exact ⟨PEvent.exit p, he, rfl⟩
        rw [hP]
        exact List.mem_toFinset.mpr (hexit.mem_iff.mp hmem)
  have hPne : (∅ : Finset Int) ≠ P := by
    intro hcontra
    rw [← hcontra] at hqP
    simp at hqP
  have hinit : TreeInv P (TreeState.initial pids.length) := by
    refine ⟨hcard.symm, by simp [TreeState.initial],
      by simp [TreeState.initial], by simp [TreeState.initial], ?_⟩
    simp only [TreeState.initial]
    rw [if_neg hPne]
  have hfin := runEvents_inv P evs (TreeState.initial pids.length) hevs hinit
  have hex : (runEvents (TreeState.initial pids.length) evs).exited = P := by
    rw [exited_runEvents]
    have : (exitPids evs).toFinset = P := by
      rw [hP]
      ext a
      simp [List.mem_toFinset, hexit.mem_iff]
    rw [this]
    simp [TreeState.initial]
  obtain ⟨-, -, -, -, hcnt⟩ := hfin
  have hone : (runEvents (TreeState.initial pids.length) evs).completedCount
      = 1 := by rw [hcnt, if_pos hex]
  refine ⟨hone, ?_⟩
  have hqex : q ∈ (runEvents (TreeState.initial pids.length) evs).exited := by
    rw [hex]; exact hqP
  rw [ReportProcessExited, if_pos hqex]
  exact hone

/-- Witness for C2. -/
theorem ReportProcessTreeCompleted_fires_once_witness :
    (runEvents (TreeState.initial [(5 : Int)].length)
        [PEvent.spawn 5, PEvent.exit 5]).completedCount = 1 ∧
    (ReportProcessExited (runEvents (TreeState.initial [(5 : Int)].length)
        [PEvent.spawn 5, PEvent.exit 5]) 5).completedCount = 1 :=
  ReportProcessTreeCompleted_fires_once [5] [PEvent.spawn 5, PEvent.exit 5] 5
    (by decide) (List.Perm.refl _) (List.Perm.refl _) (by decide)
